import Mathlib

/-
Shallow embedding of src/lambda_fuction.py, an AWS Lambda handler that
fetches database credentials from a secrets service, opens one MS SQL
connection, runs one fixed query and returns the first column of the
first row.

The external world (the secrets-manager SDK, json.loads, the pyodbc
driver) is modelled as a record of fallible functions `Env`.  A Python
exception is modelled by its string representation (`Exc`).  Side
effects that the temporal claims talk about (secret requests, opened
connections, executed queries, close calls) are recorded in an event
trace returned next to the result.  The cursor object created from a
connection is identified with the connection handle, since in the source
it is a local object derived from the single connection and the claims
only distinguish cursor close from connection close.
-/

namespace AwsLambda

/-- A Python exception, identified by its string representation. -/
abbrev Exc := String

/-- The credentials record produced by json.loads on the secret string:
a mapping from string keys to string values. -/
abbrev Secret := List (String × String)

/-- Observable side effects of one invocation, in order of occurrence. -/
inductive Event where
  | secretFetch (name : String)
  | connOpen (cs : String) (conn : Nat)
  | queryExec (conn : Nat) (q : String)
  | fetchRow (conn : Nat)
  | cursorClose (conn : Nat)
  | connClose (conn : Nat)
deriving DecidableEq, Repr

/-- The external services the handler calls into.  `secrets` is
client.get_secret_value followed by the SecretString projection;
`jsonLoads` is json.loads on the secret string; `connect` is
pyodbc.connect on a connection string, returning a connection handle;
`execQuery` is cursor.execute; `fetchone` is cursor.fetchone, returning
None or a row of column values.  Each may raise, modelled by
Except.error carrying the exception text. -/
structure Env where
  secrets : String → Except Exc String
  jsonLoads : String → Except Exc Secret
  connect : String → Except Exc Nat
  execQuery : Nat → String → Except Exc Unit
  fetchone : Nat → Except Exc (Option (List String))

/-- The dictionary returned by lambda_handler: it has exactly the fields
statusCode and body. -/
structure LambdaResult where
  statusCode : Nat
  body : String
deriving DecidableEq, Repr

/-- Lower-case hex digit of a value below 16, as in Python json escapes. -/
def hexDigit (n : Nat) : Char :=
  if n < 10 then Char.ofNat (48 + n) else Char.ofNat (87 + n)

/-- Escape of a single character under json.dumps: quote and backslash
are backslash-escaped, the common control characters use their short
forms, other characters below 0x20 and above 0x7e use a \uXXXX escape
(ensure_ascii), anything else passes through. -/
def jsonEscapeChar (c : Char) : String :=
  if c = Char.ofNat 34 then String.singleton (Char.ofNat 92) ++ String.singleton (Char.ofNat 34)
  else if c = Char.ofNat 92 then String.singleton (Char.ofNat 92) ++ String.singleton (Char.ofNat 92)
  else if c = Char.ofNat 10 then "\\n"
  else if c = Char.ofNat 9 then "\\t"
  else if c = Char.ofNat 13 then "\\r"
  else if c = Char.ofNat 8 then "\\b"
  else if c = Char.ofNat 12 then "\\f"
  else if c.toNat < 32 ∨ 126 < c.toNat then
    "\\u" ++ String.singleton (hexDigit (c.toNat / 4096 % 16))
          ++ String.singleton (hexDigit (c.toNat / 256 % 16))
          ++ String.singleton (hexDigit (c.toNat / 16 % 16))
          ++ String.singleton (hexDigit (c.toNat % 16))
  else String.singleton c

/-- json.dumps applied to a Python string: the escaped characters
between double quotes. -/
def jsonDumps (s : String) : String :=
  String.singleton (Char.ofNat 34)
    ++ String.join (s.toList.map jsonEscapeChar)
    ++ String.singleton (Char.ofNat 34)

/-- Python dict subscript d[k]: the value when the key is present,
a KeyError otherwise. -/
def dictGet (d : Secret) (k : String) : Except Exc String :=
  match d.lookup k with
  | some v => Except.ok v
  | none => Except.error ("KeyError: " ++ k)

/-- Subscript row[0] on the value returned by fetchone: a TypeError when
fetchone returned None, an IndexError when the row has no column 0,
the first column otherwise. -/
def rowGet0 (row : Option (List String)) : Except Exc String :=
  match row with
  | none => Except.error "TypeError: NoneType object is not subscriptable"
  | some [] => Except.error "IndexError: tuple index out of range"
  | some (v :: _) => Except.ok v

/-- The fixed query text executed by the handler. -/
def versionQuery : String := "SELECT @@VERSION;"

/-- get_secret from the source: call the secrets service, propagating
any error, then json.loads the secret string, propagating any error.
The trace records the single secret request. -/
def get_secret (env : Env) (secret_name : String) :
    Except Exc Secret × List Event :=
  (match env.secrets secret_name with
   | Except.error e => Except.error e
   | Except.ok s => env.jsonLoads s,
   [Event.secretFetch secret_name])

/-- The pyodbc connection string built by connect_to_mssql from the four
credential fields. -/
def connString (h d u p : String) : String :=
  "DRIVER=\x7bODBC Driver 17 for SQL Server\x7d;SERVER=" ++ h
    ++ ";DATABASE=" ++ d ++ ";UID=" ++ u ++ ";PWD=" ++ p

/-- connect_to_mssql from the source: read host, database, username and
password from the credentials record (in the evaluation order of the
f-string), build the connection string and call pyodbc.connect,
propagating any error.  The trace records a successful open. -/
def connect_to_mssql (env : Env) (secret : Secret) :
    Except Exc Nat × List Event :=
  match dictGet secret "host" with
  | Except.error e => (Except.error e, [])
  | Except.ok h =>
    match dictGet secret "database" with
    | Except.error e => (Except.error e, [])
    | Except.ok d =>
      match dictGet secret "username" with
      | Except.error e => (Except.error e, [])
      | Except.ok u =>
        match dictGet secret "password" with
        | Except.error e => (Except.error e, [])
        | Except.ok p =>
          match env.connect (connString h d u p) with
          | Except.error e => (Except.error e, [])
          | Except.ok c => (Except.ok c, [Event.connOpen (connString h d u p) c])

/-- The body of the try block of lambda_handler: get the secret, connect,
execute the fixed query, fetch one row and take its first column.  On
success it yields the connection handle and the first-column value; the
first exception raised by any step is returned as the error. -/
def tryBody (env : Env) (secret_name : String) :
    Except Exc (Nat × String) × List Event :=
  let gs := get_secret env secret_name
  match gs.fst with
  | Except.error e => (Except.error e, gs.snd)
  | Except.ok secret =>
    let cm := connect_to_mssql env secret
    match cm.fst with
    | Except.error e => (Except.error e, gs.snd ++ cm.snd)
    | Except.ok conn =>
      match env.execQuery conn versionQuery with
      | Except.error e =>
        (Except.error e, gs.snd ++ cm.snd ++ [Event.queryExec conn versionQuery])
      | Except.ok _ =>
        match env.fetchone conn with
        | Except.error e =>
          (Except.error e,
           gs.snd ++ cm.snd ++ [Event.queryExec conn versionQuery, Event.fetchRow conn])
        | Except.ok row =>
          match rowGet0 row with
          | Except.error e =>
            (Except.error e,
             gs.snd ++ cm.snd ++ [Event.queryExec conn versionQuery, Event.fetchRow conn])
          | Except.ok v =>
            (Except.ok (conn, v),
             gs.snd ++ cm.snd ++ [Event.queryExec conn versionQuery, Event.fetchRow conn])

/-- lambda_handler from the source: run the try block under the fixed
secret name; on success close the cursor and the connection and return
statusCode 200 with the json.dumps of the version message; on any
exception return statusCode 500 with the json.dumps of the error
message.  The event and context arguments are never read. -/
def lambda_handler (env : Env) (event context : String) :
    LambdaResult × List Event :=
  let secret_name := "your_secret_name"
  let r := tryBody env secret_name
  match r.fst with
  | Except.ok cv =>
    ({ statusCode := 200, body := jsonDumps ("Database version: " ++ cv.snd) },
     r.snd ++ [Event.cursorClose cv.fst, Event.connClose cv.fst])
  | Except.error e =>
    ({ statusCode := 500, body := jsonDumps ("Error: " ++ e) }, r.snd)

/-- A credentials record with all four expected keys. -/
def okSecretRecord : Secret :=
  [("host", "db.example.com"), ("database", "master"),
   ("username", "admin"), ("password", "pw")]

/-- An environment in which every step succeeds and the query returns
one row. -/
def okEnv : Env where
  secrets := fun _ => Except.ok "secret-json"
  jsonLoads := fun _ => Except.ok okSecretRecord
  connect := fun _ => Except.ok 1
  execQuery := fun _ _ => Except.ok ()
  fetchone := fun _ => Except.ok (some ["SQL Server 2019"])

/-- An environment in which the secrets service fails. -/
def secretFailEnv : Env :=
  { okEnv with secrets := fun _ => Except.error "AccessDeniedException" }

/-- An environment in which the connection opens but the query raises. -/
def queryFailEnv : Env :=
  { okEnv with execQuery := fun _ _ => Except.error "ProgrammingError: bad query" }

/-- An environment in which everything succeeds but the query yields no
rows, so fetchone returns None. -/
def noRowEnv : Env :=
  { okEnv with fetchone := fun _ => Except.ok none }

/-- Recognizer for secret-request events. -/
def isSecretFetchEv : Event → Bool
  | Event.secretFetch _ => true
  | _ => false

/-- Recognizer for successful-connection events. -/
def isConnOpenEv : Event → Bool
  | Event.connOpen _ _ => true
  | _ => false

/-- Recognizer for query-execution events. -/
def isQueryExecEv : Event → Bool
  | Event.queryExec _ _ => true
  | _ => false

/-- Recognizer for connection-close events. -/
def isConnCloseEv : Event → Bool
  | Event.connClose _ => true
  | _ => false

theorem get_secret_fst (env : Env) (n : String) :
    (get_secret env n).fst =
      match env.secrets n with
      | Except.error e => Except.error e
      | Except.ok s => env.jsonLoads s := rfl

theorem get_secret_snd (env : Env) (n : String) :
    (get_secret env n).snd = [Event.secretFetch n] := rfl

theorem connect_to_mssql_ok_trace (env : Env) (s : Secret) (c : Nat)
    (h : (connect_to_mssql env s).fst = Except.ok c) :
    ∃ cs, (connect_to_mssql env s).snd = [Event.connOpen cs c]
      ∧ env.connect cs = Except.ok c := by
  unfold connect_to_mssql at h ⊢
  rcases h1 : dictGet s "host" with e | hh <;> simp only [h1] at h ⊢
  · simp at h
  rcases h2 : dictGet s "database" with e | dd <;> simp only [h2] at h ⊢
  · simp at h
  rcases h3 : dictGet s "username" with e | uu <;> simp only [h3] at h ⊢
  · simp at h
  rcases h4 : dictGet s "password" with e | pp <;> simp only [h4] at h ⊢
  · simp at h
  rcases h5 : env.connect (connString hh dd uu pp) with e | c0 <;> simp only [h5] at h ⊢
  · simp at h
  simp at h
  subst h
  exact ⟨_, rfl, h5⟩

theorem connect_to_mssql_err_trace (env : Env) (s : Secret) (e0 : Exc)
    (h : (connect_to_mssql env s).fst = Except.error e0) :
    (connect_to_mssql env s).snd = [] := by
  unfold connect_to_mssql at h ⊢
  rcases h1 : dictGet s "host" with e | hh <;> simp only [h1] at h ⊢
  rcases h2 : dictGet s "database" with e | dd <;> simp only [h2] at h ⊢
  rcases h3 : dictGet s "username" with e | uu <;> simp only [h3] at h ⊢
  rcases h4 : dictGet s "password" with e | pp <;> simp only [h4] at h ⊢
  rcases h5 : env.connect (connString hh dd uu pp) with e | c0 <;> simp only [h5] at h ⊢
  simp at h

theorem tryBody_ok_dest (env : Env) (n : String) (c : Nat) (v : String)
    (h : (tryBody env n).fst = Except.ok (c, v)) :
    (∃ cs, (tryBody env n).snd =
        [Event.secretFetch n, Event.connOpen cs c,
         Event.queryExec c versionQuery, Event.fetchRow c])
    ∧ ∃ rest, env.fetchone c = Except.ok (some (v :: rest)) := by
  unfold tryBody at h ⊢
  simp only [get_secret_fst, get_secret_snd] at h ⊢
  rcases hs : env.secrets n with e | ss <;> simp only [hs] at h ⊢
  · simp at h
  rcases hj : env.jsonLoads ss with e | sec <;> simp only [hj] at h ⊢
  · simp at h
  rcases hc : (connect_to_mssql env sec).fst with e | conn <;> simp only [hc] at h ⊢
  · simp at h
  obtain ⟨cs, hsnd, _⟩ := connect_to_mssql_ok_trace env sec conn hc
  rcases hq : env.execQuery conn versionQuery with e | u <;> simp only [hq] at h ⊢
  · simp at h
  rcases hf : env.fetchone conn with e | row <;> simp only [hf] at h ⊢
  · simp at h
  rcases row with _ | ⟨_ | ⟨v0, rest0⟩⟩ <;> simp only [rowGet0] at h ⊢
  · simp at h
  · simp at h
  simp only [Except.ok.injEq, Prod.mk.injEq] at h
  obtain ⟨hcv, hvv⟩ := h
  subst hcv
  subst hvv
  exact ⟨⟨cs, by simp [hsnd]⟩, rest0, hf⟩

theorem tryBody_trace_shape (env : Env) (n : String) :
    (tryBody env n).snd = [Event.secretFetch n]
  ∨ (∃ cs c, (tryBody env n).snd =
      [Event.secretFetch n, Event.connOpen cs c, Event.queryExec c versionQuery])
  ∨ (∃ cs c, (tryBody env n).snd =
      [Event.secretFetch n, Event.connOpen cs c, Event.queryExec c versionQuery,
       Event.fetchRow c]) := by
  unfold tryBody
  simp only [get_secret_fst, get_secret_snd]
  rcases hs : env.secrets n with e | ss <;> simp only [hs]
  · exact Or.inl trivial
  rcases hj : env.jsonLoads ss with e | sec <;> simp only [hj]
  · exact Or.inl trivial
  rcases hc : (connect_to_mssql env sec).fst with e | conn <;> simp only [hc]
  · exact Or.inl (by simp [connect_to_mssql_err_trace env sec e hc])
  obtain ⟨cs, hsnd, _⟩ := connect_to_mssql_ok_trace env sec conn hc
  rcases hq : env.execQuery conn versionQuery with e | u <;> simp only [hq]
  · exact Or.inr (Or.inl ⟨cs, conn, by simp [hsnd]⟩)
  rcases hf : env.fetchone conn with e | row <;> simp only [hf]
  · exact Or.inr (Or.inr ⟨cs, conn, by simp [hsnd]⟩)
  rcases hr : rowGet0 row with e | v <;> simp only [hr]
  · exact Or.inr (Or.inr ⟨cs, conn, by simp [hsnd]⟩)
  · exact Or.inr (Or.inr ⟨cs, conn, by simp [hsnd]⟩)

theorem lambda_handler_cases (env : Env) (ev ctx : String) :
    (∃ cv, (tryBody env "your_secret_name").fst = Except.ok cv
       ∧ lambda_handler env ev ctx =
         ({ statusCode := 200, body := jsonDumps ("Database version: " ++ cv.snd) },
          (tryBody env "your_secret_name").snd
            ++ [Event.cursorClose cv.fst, Event.connClose cv.fst]))
  ∨ (∃ e, (tryBody env "your_secret_name").fst = Except.error e
       ∧ lambda_handler env ev ctx =
         ({ statusCode := 500, body := jsonDumps ("Error: " ++ e) },
          (tryBody env "your_secret_name").snd)) := by
  unfold lambda_handler
  rcases h : (tryBody env "your_secret_name").fst with e | cv <;> simp only [h]
  · exact Or.inr ⟨e, rfl, rfl⟩
  · exact Or.inl ⟨cv, rfl, rfl⟩

/-- Claim C1: when secret retrieval, JSON decoding, connection and query
execution all succeed and the query yields at least one row,
lambda_handler returns statusCode 200 with body the JSON encoding of
"Database version: " followed by the first column of the first row. -/
theorem lambda_handler_success_200 (env : Env) (ev ctx : String)
    (ss : String) (sec : Secret) (conn : Nat) (v : String) (rest : List String)
    (h1 : env.secrets "your_secret_name" = Except.ok ss)
    (h2 : env.jsonLoads ss = Except.ok sec)
    (h3 : (connect_to_mssql env sec).fst = Except.ok conn)
    (h4 : env.execQuery conn versionQuery = Except.ok ())
    (h5 : env.fetchone conn = Except.ok (some (v :: rest))) :
    (lambda_handler env ev ctx).fst =
      { statusCode := 200, body := jsonDumps ("Database version: " ++ v) } := by
  simp only [lambda_handler, tryBody, get_secret, h1, h2, h3, h4, h5, rowGet0]

/-- Witness for C1: in the all-success environment the handler returns
200 with the version body. -/
theorem lambda_handler_success_200_witness :
    (lambda_handler okEnv "ev" "ctx").fst =
      { statusCode := 200,
        body := jsonDumps ("Database version: " ++ "SQL Server 2019") } :=
  lambda_handler_success_200 okEnv "ev" "ctx" "secret-json" okSecretRecord 1
    "SQL Server 2019" [] rfl rfl rfl rfl rfl

/-- Claim C2: when any step of the try block raises, lambda_handler
catches the exception and returns statusCode 500 with body the JSON
encoding of a string that contains the exception text; the handler is a
total function of the environment, so no exception escapes it. -/
theorem lambda_handler_failure_500 (env : Env) (ev ctx : String) (e : Exc)
    (h : (tryBody env "your_secret_name").fst = Except.error e) :
    (lambda_handler env ev ctx).fst =
      { statusCode := 500, body := jsonDumps ("Error: " ++ e) }
    ∧ ∃ s, (lambda_handler env ev ctx).fst.body = jsonDumps s
        ∧ e.toList <:+: s.toList := by
  unfold lambda_handler
  simp only [h]
  exact ⟨trivial, "Error: " ++ e, rfl, "Error: ".toList, [], by simp⟩

/-- Witness for C2: a secrets-service failure produces the 500 response
carrying the error text. -/
theorem lambda_handler_failure_500_witness :
    (lambda_handler secretFailEnv "ev" "ctx").fst =
      { statusCode := 500, body := jsonDumps ("Error: " ++ "AccessDeniedException") }
    ∧ ∃ s, (lambda_handler secretFailEnv "ev" "ctx").fst.body = jsonDumps s
        ∧ "AccessDeniedException".toList <:+: s.toList :=
  lambda_handler_failure_500 secretFailEnv "ev" "ctx" "AccessDeniedException" rfl

/-- Claim C8: on both branches the handler returns a record with exactly
the fields statusCode and body (the LambdaResult structure), where
statusCode is 200 or 500 and body is the JSON encoding of some string. -/
theorem lambda_handler_result_shape (env : Env) (ev ctx : String) :
    ((lambda_handler env ev ctx).fst.statusCode = 200
       ∨ (lambda_handler env ev ctx).fst.statusCode = 500)
    ∧ ∃ s, (lambda_handler env ev ctx).fst.body = jsonDumps s := by
  rcases lambda_handler_cases env ev ctx with ⟨cv, hok, heq⟩ | ⟨e, herr, heq⟩
  · rw [heq]; exact ⟨Or.inl rfl, _, rfl⟩
  · rw [heq]; exact ⟨Or.inr rfl, _, rfl⟩

/-- Witness for C8: the result shape at the all-success environment. -/
theorem lambda_handler_result_shape_witness :
    ((lambda_handler okEnv "ev" "ctx").fst.statusCode = 200
       ∨ (lambda_handler okEnv "ev" "ctx").fst.statusCode = 500)
    ∧ ∃ s, (lambda_handler okEnv "ev" "ctx").fst.body = jsonDumps s :=
  lambda_handler_result_shape okEnv "ev" "ctx"

/-- Claim C9: lambda_handler never reads its event or context arguments:
with the same external services, any two invocations return the same
result and trace whatever event and context are supplied. -/
theorem lambda_handler_ignores_event_context
    (env : Env) (ev1 ctx1 ev2 ctx2 : String) :
    lambda_handler env ev1 ctx1 = lambda_handler env ev2 ctx2 := rfl

/-- Witness for C9: two invocations with different event and context
values coincide. -/
theorem lambda_handler_ignores_event_context_witness :
    lambda_handler okEnv "eventA" "ctxA" = lambda_handler okEnv "eventB" "ctxB" :=
  lambda_handler_ignores_event_context okEnv "eventA" "ctxA" "eventB" "ctxB"

/-- Claim C3: get_secret fails exactly when the underlying secret
retrieval or the JSON decode of the returned secret string fails, and
otherwise returns the JSON-decoded payload; the error of the failing
step is propagated unchanged (no default is substituted), and the trace
shows a single secret request (no retries). -/
theorem get_secret_spec (env : Env) (n : String) :
    (∀ v, (get_secret env n).fst = Except.ok v ↔
        ∃ s, env.secrets n = Except.ok s ∧ env.jsonLoads s = Except.ok v)
  ∧ (∀ e, (get_secret env n).fst = Except.error e ↔
        env.secrets n = Except.error e ∨
        ∃ s, env.secrets n = Except.ok s ∧ env.jsonLoads s = Except.error e)
  ∧ (get_secret env n).snd = [Event.secretFetch n] := by
  refine ⟨?_, ?_, rfl⟩ <;> intro x <;>
    rcases hs : env.secrets n with e | ss <;>
      simp [get_secret_fst, hs]

/-- Witness for C3: under the all-success environment get_secret returns
the decoded credentials record. -/
theorem get_secret_spec_witness :
    (get_secret okEnv "your_secret_name").fst = Except.ok okSecretRecord :=
  ((get_secret_spec okEnv "your_secret_name").1 okSecretRecord).mpr
    ⟨"secret-json", rfl, rfl⟩

/-- Claim C4: connect_to_mssql succeeds exactly when the credentials
record has all of host, database, username and password and the driver
accepts the connection string built from those four values; its result
depends only on those four keys (no other key is read); and a record
missing any of the four keys makes the call fail. -/
theorem connect_to_mssql_spec (env : Env) (s : Secret) :
    (∀ c, (connect_to_mssql env s).fst = Except.ok c ↔
       ∃ hh dd uu pp, s.lookup "host" = some hh ∧ s.lookup "database" = some dd
         ∧ s.lookup "username" = some uu ∧ s.lookup "password" = some pp
         ∧ env.connect (connString hh dd uu pp) = Except.ok c)
  ∧ (∀ s2 : Secret,
       s.lookup "host" = s2.lookup "host" →
       s.lookup "database" = s2.lookup "database" →
       s.lookup "username" = s2.lookup "username" →
       s.lookup "password" = s2.lookup "password" →
       connect_to_mssql env s = connect_to_mssql env s2)
  ∧ ((s.lookup "host" = none ∨ s.lookup "database" = none
        ∨ s.lookup "username" = none ∨ s.lookup "password" = none) →
       ∃ e, (connect_to_mssql env s).fst = Except.error e) := by
  refine ⟨?_, ?_, ?_⟩
  · intro c
    unfold connect_to_mssql dictGet
    rcases h1 : s.lookup "host" with _ | hh <;>
    rcases h2 : s.lookup "database" with _ | dd <;>
    rcases h3 : s.lookup "username" with _ | uu <;>
    rcases h4 : s.lookup "password" with _ | pp <;>
      simp_all
    rcases h5 : env.connect (connString hh dd uu pp) with e | c0 <;> simp [h5]
  · intro s2 h1 h2 h3 h4
    unfold connect_to_mssql dictGet
    rw [h1, h2, h3, h4]
  · intro hnone
    unfold connect_to_mssql dictGet
    rcases h1 : s.lookup "host" with _ | hh <;>
    rcases h2 : s.lookup "database" with _ | dd <;>
    rcases h3 : s.lookup "username" with _ | uu <;>
    rcases h4 : s.lookup "password" with _ | pp <;>
      simp_all

/-- Witness for C4: with the full credentials record and a willing
driver the connection opens. -/
theorem connect_to_mssql_spec_witness :
    (connect_to_mssql okEnv okSecretRecord).fst = Except.ok 1 :=
  ((connect_to_mssql_spec okEnv okSecretRecord).1 1).mpr
    ⟨"db.example.com", "master", "admin", "pw", rfl, rfl, rfl, rfl, rfl⟩

/-- Claim C5: on every invocation that returns statusCode 200, the trace
ends with the cursor close followed by the connection close of the
connection that was opened, so both are closed before the handler
returns its result. -/
theorem lambda_handler_success_closes (env : Env) (ev ctx : String)
    (h : (lambda_handler env ev ctx).fst.statusCode = 200) :
    ∃ cs conn pre, (lambda_handler env ev ctx).snd
        = pre ++ [Event.cursorClose conn, Event.connClose conn]
      ∧ Event.connOpen cs conn ∈ pre := by
  rcases lambda_handler_cases env ev ctx with ⟨cv, hok, heq⟩ | ⟨e, herr, heq⟩
  · obtain ⟨⟨cs, hsnd⟩, _⟩ := tryBody_ok_dest env _ cv.fst cv.snd (by rw [hok])
    refine ⟨cs, cv.fst, (tryBody env "your_secret_name").snd, ?_, ?_⟩
    · rw [heq]
    · rw [hsnd]; simp
  · rw [heq] at h; simp at h

/-- Witness for C5: in the all-success environment the trace ends with
the two close events. -/
theorem lambda_handler_success_closes_witness :
    ∃ cs conn pre, (lambda_handler okEnv "ev" "ctx").snd
        = pre ++ [Event.cursorClose conn, Event.connClose conn]
      ∧ Event.connOpen cs conn ∈ pre :=
  lambda_handler_success_closes okEnv "ev" "ctx" rfl

/-- Claim C6: there is an invocation (connection opens, then the query
raises) on which the handler returns the 500 response and the trace
contains a successful connection open but no connection close: release
is not guaranteed on the failure path. -/
theorem lambda_handler_leak_on_query_failure :
    (lambda_handler queryFailEnv "ev" "ctx").fst.statusCode = 500
  ∧ (lambda_handler queryFailEnv "ev" "ctx").snd.countP isConnOpenEv = 1
  ∧ (lambda_handler queryFailEnv "ev" "ctx").snd.countP isConnCloseEv = 0 :=
  ⟨rfl, rfl, rfl⟩

/-- Claim C7 counterexample: on the invocation in which the secrets
service fails, exactly one secret is requested but no query at all is
executed, refuting "executes exactly one fixed query" on every
invocation. -/
theorem lambda_handler_fixed_query_counterexample :
    (lambda_handler secretFailEnv "ev" "ctx").snd.countP isSecretFetchEv = 1
  ∧ ¬ (lambda_handler secretFailEnv "ev" "ctx").snd.countP isQueryExecEv = 1
  ∧ (lambda_handler secretFailEnv "ev" "ctx").snd.countP isQueryExecEv = 0 :=
  ⟨rfl, by decide, rfl⟩

/-- Claim C7 amended: on every invocation the handler requests exactly
one secret, always under the fixed name, and executes at most one query,
always the fixed version query; a query is executed exactly when a
connection was successfully opened. -/
theorem lambda_handler_query_discipline (env : Env) (ev ctx : String) :
    ((lambda_handler env ev ctx).snd.countP isSecretFetchEv = 1)
  ∧ (∀ m, Event.secretFetch m ∈ (lambda_handler env ev ctx).snd →
      m = "your_secret_name")
  ∧ ((lambda_handler env ev ctx).snd.countP isQueryExecEv
       = (lambda_handler env ev ctx).snd.countP isConnOpenEv)
  ∧ ((lambda_handler env ev ctx).snd.countP isQueryExecEv ≤ 1)
  ∧ (∀ c q, Event.queryExec c q ∈ (lambda_handler env ev ctx).snd →
      q = versionQuery) := by
  have hshape := tryBody_trace_shape env "your_secret_name"
  rcases lambda_handler_cases env ev ctx with ⟨cv, hok, heq⟩ | ⟨e, herr, heq⟩ <;>
    rcases hshape with h | ⟨cs, c, h⟩ | ⟨cs, c, h⟩ <;>
      simp [heq, h, List.countP_cons, List.countP_append,
        isSecretFetchEv, isQueryExecEv, isConnOpenEv]

/-- Witness for the amended C7: counts at the all-success environment. -/
theorem lambda_handler_query_discipline_witness :
    ((lambda_handler okEnv "ev" "ctx").snd.countP isSecretFetchEv = 1)
  ∧ ((lambda_handler okEnv "ev" "ctx").snd.countP isQueryExecEv
       = (lambda_handler okEnv "ev" "ctx").snd.countP isConnOpenEv) :=
  ⟨(lambda_handler_query_discipline okEnv "ev" "ctx").1,
   (lambda_handler_query_discipline okEnv "ev" "ctx").2.2.1⟩

/-- Claim C10: when connection and query execution succeed but fetchone
yields no row, the subscript row[0] raises and the handler returns the
500 response carrying the TypeError text; conversely the 200 path is
reachable only when fetchone produced a row with a first column. -/
theorem lambda_handler_no_rows (env : Env) (ev ctx : String) :
    (∀ ss sec conn, env.secrets "your_secret_name" = Except.ok ss →
      env.jsonLoads ss = Except.ok sec →
      (connect_to_mssql env sec).fst = Except.ok conn →
      env.execQuery conn versionQuery = Except.ok () →
      env.fetchone conn = Except.ok none →
      (lambda_handler env ev ctx).fst =
        { statusCode := 500,
          body := jsonDumps
            ("Error: " ++ "TypeError: NoneType object is not subscriptable") })
  ∧ ((lambda_handler env ev ctx).fst.statusCode = 200 →
      ∃ conn v rest, env.fetchone conn = Except.ok (some (v :: rest))) := by
  constructor
  · intro ss sec conn h1 h2 h3 h4 h5
    simp only [lambda_handler, tryBody, get_secret, h1, h2, h3, h4, h5, rowGet0]
  · intro h200
    rcases lambda_handler_cases env ev ctx with ⟨cv, hok, heq⟩ | ⟨e, herr, heq⟩
    · obtain ⟨_, rest, hf⟩ := tryBody_ok_dest env _ cv.fst cv.snd (by rw [hok])
      exact ⟨cv.fst, cv.snd, rest, hf⟩
    · rw [heq] at h200; simp at h200

/-- Witness for C10: the environment whose query returns no rows makes
the handler answer 500 with the TypeError text. -/
theorem lambda_handler_no_rows_witness :
    (lambda_handler noRowEnv "ev" "ctx").fst =
      { statusCode := 500,
        body := jsonDumps
          ("Error: " ++ "TypeError: NoneType object is not subscriptable") } :=
  (lambda_handler_no_rows noRowEnv "ev" "ctx").1 "secret-json" okSecretRecord 1
    rfl rfl rfl rfl rfl

end AwsLambda
